import Mathlib

/-!
Verification of the core payment-engine data model and operations of this
repository against its natural-language specification.

The TypeScript sources under `packages/backend/src` are embedded shallowly:
each relevant class or function becomes an executable Lean definition, and the
spec's claims become theorems about those definitions.  Where a deciding
implementation file is absent from the provided sources (only its tests,
declarations or callers are present), the corresponding definition is modelled
from the spec and carries a doc comment starting with `Modelled from the
spec:`; the in-repo tests pin its concrete behaviour.
-/

/-! ## Incoming payment model
(open_payments/payment/incoming/model.ts) -/

/-- `IncomingPaymentState` from incoming/model.ts: Pending on creation,
Processing once funds have cleared, Completed on reaching `incomingAmount` or
explicit completion, Expired past `expiresAt`. -/
inductive IncomingPaymentState
  | Pending
  | Processing
  | Completed
  | Expired
deriving DecidableEq, Repr

/-- A row of the `incomingPayments` table, restricted to the columns the claims
are about.  `connectionId` is an optional uuid (modelled as `Option Nat`);
`incomingAmountValue` is the nullable bigint column backing the
`incomingAmount` virtual attribute; `processAt` is a nullable timestamp in
milliseconds. -/
structure IncomingPayment where
  id : Nat
  state : IncomingPaymentState
  incomingAmountValue : Option Int
  connectionId : Option Nat
  processAt : Option Int
deriving DecidableEq, Repr

/-- The `incomingAmount` getter: `if (this.incomingAmountValue) { ... }` is
JavaScript-falsy for both `null` and `0n`, so the getter yields nothing when
the stored value is null or zero. -/
def IncomingPayment.incomingAmount (p : IncomingPayment) : Option Int :=
  match p.incomingAmountValue with
  | some v => if v = 0 then none else some v
  | none => none

/-- A patch (partial update) of an incoming payment row, as passed to
`patch`/`patchAndFetchById`.  `some none` in `connectionId`/`processAt` sets
the column to null. -/
structure IncomingPaymentPatch where
  state : Option IncomingPaymentState
  connectionId : Option (Option Nat)
  processAt : Option (Option Int)
deriving DecidableEq, Repr

/-- `IncomingPayment.$beforeInsert`: assigns `connectionId = connectionId ||
uuid()`, i.e. keeps a provided id and otherwise draws a fresh uuid; either way
the inserted row has a non-null `connectionId`. -/
def beforeInsert (p : IncomingPayment) (fresh : Nat) : IncomingPayment :=
  { p with connectionId := some (p.connectionId.getD fresh) }

/-- `IncomingPayment.$beforeUpdate`: if the patch sets the state to Completed
or Expired, the patch is extended to null out `connectionId`. -/
def beforeUpdate (patch : IncomingPaymentPatch) : IncomingPaymentPatch :=
  match patch.state with
  | some s =>
      if s = .Completed ∨ s = .Expired then { patch with connectionId := some none }
      else patch
  | none => patch

/-- Applying a patch to a stored row (objection merges the patched columns into
the row). -/
def applyPatch (p : IncomingPayment) (patch : IncomingPaymentPatch) : IncomingPayment :=
  { p with
    state := patch.state.getD p.state
    connectionId := patch.connectionId.getD p.connectionId
    processAt := patch.processAt.getD p.processAt }

/-- `IncomingPayment.onCredit` (incoming/model.ts lines 136-165): patches the
stored row to Completed (with `processAt = now + 30s`) when the in-memory
payment has a non-zero `incomingAmount` that `totalReceived` reaches, and to
Processing otherwise.  Both patch queries carry
`whereNotIn('state', [Expired, Completed])`, so they match nothing when the
stored row is terminal, in which case the method returns `this` unchanged.
Returns (stored row after the call, returned payment); every applied patch
passes through `$beforeUpdate`. -/
def IncomingPayment.onCredit (stored self : IncomingPayment) (totalReceived now : Int) :
    IncomingPayment × IncomingPayment :=
  let patch : IncomingPaymentPatch :=
    match self.incomingAmount with
    | some amt =>
        if amt ≤ totalReceived then ⟨some .Completed, none, some (some (now + 30000))⟩
        else ⟨some .Processing, none, none⟩
    | none => ⟨some .Processing, none, none⟩
  if stored.state = .Expired ∨ stored.state = .Completed then (stored, self)
  else
    let updated := applyPatch stored (beforeUpdate patch)
    (updated, updated)

/-- The state-changing updates the engine performs on an incoming payment row.
`onCreditStep` is from incoming/model.ts.  `expire` and `complete` are
modelled from the spec: the incoming-payment timer worker (not under the
provided sources) moves Pending/Processing rows past `expiresAt` to Expired,
and explicit completion moves Pending/Processing rows to Completed; both are
row patches and hence pass through `$beforeUpdate`. -/
inductive IncomingStep : IncomingPayment → IncomingPayment → Prop
  | onCreditStep (p self : IncomingPayment) (t now : Int) :
      IncomingStep p (IncomingPayment.onCredit p self t now).1
  | expire (p : IncomingPayment) :
      p.state = .Pending ∨ p.state = .Processing →
      IncomingStep p (applyPatch p (beforeUpdate ⟨some .Expired, none, none⟩))
  | complete (p : IncomingPayment) :
      p.state = .Pending ∨ p.state = .Processing →
      IncomingStep p (applyPatch p (beforeUpdate ⟨some .Completed, none, none⟩))

/-- Rows reachable by the engine: inserted Pending (the initial state per the
model's own documentation) through `$beforeInsert`, then driven by
`IncomingStep`. -/
inductive IncomingReachable : IncomingPayment → Prop
  | inserted (p : IncomingPayment) (fresh : Nat) :
      p.state = .Pending → IncomingReachable (beforeInsert p fresh)
  | step (p q : IncomingPayment) :
      IncomingReachable p → IncomingStep p q → IncomingReachable q

/-- The C1 invariant: `connectionId` is non-null iff the state is Pending or
Processing. -/
def connectionInvariant (p : IncomingPayment) : Prop :=
  p.connectionId.isSome = true ↔ (p.state = .Pending ∨ p.state = .Processing)

/-! ## Wallet address model (open_payments/wallet_address/model.ts) -/

/-- The asset columns relevant here: the nullable `withdrawalThreshold`. -/
structure AssetRow where
  withdrawalThreshold : Option Int
deriving DecidableEq, Repr

/-- A `walletAddresses` row restricted to the columns `onCredit` touches. -/
structure WalletAddress where
  id : Nat
  totalEventsAmount : Int
  processAt : Option Int
  asset : AssetRow
deriving DecidableEq, Repr

/-- The throttled branch of `WalletAddress.onCredit`: when
`withdrawalThrottleDelay !== undefined && !this.processAt`, schedule
`processAt = now + withdrawalThrottleDelay`; otherwise leave the row alone. -/
def waOnCreditThrottle (w : WalletAddress) (withdrawalThrottleDelay : Option Int)
    (now : Int) : WalletAddress :=
  match withdrawalThrottleDelay, w.processAt with
  | some delay, none => { w with processAt := some (now + delay) }
  | _, _ => w

/-- `WalletAddress.onCredit` (wallet_address/model.ts lines 57-81): when the
asset has a `withdrawalThreshold` (`!== null`) and the stored
`totalEventsAmount <= totalReceived - withdrawalThreshold` (the `whereRaw`
guard of the patch), `processAt` is set to the current time; otherwise the
throttled branch runs. -/
def WalletAddress.onCredit (w : WalletAddress) (totalReceived : Int)
    (withdrawalThrottleDelay : Option Int) (now : Int) : WalletAddress :=
  match w.asset.withdrawalThreshold with
  | some threshold =>
      if w.totalEventsAmount ≤ totalReceived - threshold then
        { w with processAt := some now }
      else waOnCreditThrottle w withdrawalThrottleDelay now
  | none => waOnCreditThrottle w withdrawalThrottleDelay now

/-! ## Packet pipeline account middleware
(connector core middleware/account.ts, provided as an unnamed source file) -/

/-- Typed ILP errors raised by the account middleware. -/
inductive ILPErrorKind
  | UnreachableError (message : String)
deriving DecidableEq, Repr

/-- The outgoing account the middleware resolves: a local incoming payment, a
local wallet address (SPSP fallback), or a peer matched by destination
address. -/
inductive OutgoingAccount
  | incomingPaymentAccount (p : IncomingPayment)
  | walletAddressAccount (w : WalletAddress)
  | peerAccount (peerId : Nat)

/-- The middleware's service environment: lookups backing
`ctx.services.incomingPayments.get`, `ctx.services.walletAddresses.get` and
`ctx.services.peers.getByDestinationAddress`. -/
structure ConnectorEnv where
  incomingPayments : Nat → Option IncomingPayment
  walletAddresses : Nat → Option WalletAddress
  peerByDestinationAddress : String → Option Nat
  serverAddress : String

/-- The non-stream tail of `getAccountByDestinationAddress`: a peer whose
static ILP address prefixes the destination, else the reserved local
ILP-access account branch, which is a TODO in the source and resolves
nothing. -/
def lookupNonStreamAccount (env : ConnectorEnv) (destination : String) :
    Option OutgoingAccount :=
  match env.peerByDestinationAddress destination with
  | some pid => some (.peerAccount pid)
  | none => none

/-- `getAccountByDestinationAddress` from the account middleware: with a
`streamDestination`, first try the incoming payment of that id — throwing
`UnreachableError('destination account is disabled')` when the prepare amount
is non-zero and the payment is Completed or Expired — then the wallet-address
SPSP fallback; otherwise (or when neither matches) fall through to the peer /
local-account lookup.  The lazy liquidity-account creation is a ledger side
effect with no bearing on the returned account and is not modelled. -/
def getAccountByDestinationAddress (env : ConnectorEnv)
    (streamDestination : Option Nat) (prepareAmount : Nat) (destination : String) :
    Except ILPErrorKind (Option OutgoingAccount) :=
  match streamDestination with
  | some dest =>
      match env.incomingPayments dest with
      | some ip =>
          if prepareAmount ≠ 0 ∧ (ip.state = .Completed ∨ ip.state = .Expired) then
            .error (.UnreachableError "destination account is disabled")
          else .ok (some (.incomingPaymentAccount ip))
      | none =>
          match env.walletAddresses dest with
          | some w => .ok (some (.walletAddressAccount w))
          | none => .ok (lookupNonStreamAccount env destination)
  | none => .ok (lookupNonStreamAccount env destination)

/-- The account middleware's outgoing-account resolution: a missing outgoing
account becomes `UnreachableError('unknown destination account')`. -/
def accountMiddlewareOutgoing (env : ConnectorEnv) (streamDestination : Option Nat)
    (prepareAmount : Nat) (destination : String) :
    Except ILPErrorKind OutgoingAccount :=
  match getAccountByDestinationAddress env streamDestination prepareAmount destination with
  | .error e => .error e
  | .ok none => .error (.UnreachableError "unknown destination account")
  | .ok (some a) => .ok a

/-! ## C1: connectionId invariant and terminal unreachability -/

/-- Every reachable incoming payment row satisfies the connectionId/state
invariant: the uuid assigned by `$beforeInsert` survives exactly until an
update sets the state to Completed or Expired, at which point `$beforeUpdate`
nulls it. -/
theorem incomingReachable_invariant (p : IncomingPayment) (h : IncomingReachable p) :
    connectionInvariant p := by
  induction h with
  | inserted q fresh hq =>
      simp [connectionInvariant, beforeInsert, hq]
  | step a b ha hstep ih =>
      cases hstep with
      | onCreditStep self t now =>
          by_cases hterm : a.state = .Expired ∨ a.state = .Completed
          · simpa [IncomingPayment.onCredit, hterm] using ih
          · have hactive : a.state = .Pending ∨ a.state = .Processing := by
              cases hs : a.state <;> simp_all
            have hsome : a.connectionId.isSome = true := ih.mpr hactive
            rcases hia : self.incomingAmount with _ | amt
            · simp [connectionInvariant, IncomingPayment.onCredit, hterm, hia,
                applyPatch, beforeUpdate, hsome]
            · by_cases hle : amt ≤ t
              · simp [connectionInvariant, IncomingPayment.onCredit, hterm, hia, hle,
                  applyPatch, beforeUpdate]
              · simp [connectionInvariant, IncomingPayment.onCredit, hterm, hia, hle,
                  applyPatch, beforeUpdate, hsome]
      | expire hpre =>
          simp [connectionInvariant, applyPatch, beforeUpdate]
      | complete hpre =>
          simp [connectionInvariant, applyPatch, beforeUpdate]

/-- Claim C1: for every reachable incoming payment, `connectionId` is non-null
iff its state is Pending or Processing (a uuid connectionId is assigned on
insert, and any update that sets the state to Completed or Expired nulls it);
and for a payment in state Completed or Expired, the packet pipeline's account
middleware rejects any prepare packet with non-zero amount addressed to it
with `UnreachableError`. -/
theorem incomingPayment_connectionId_invariant_and_terminal_unreachable
    (p : IncomingPayment) (hp : IncomingReachable p) :
    (p.connectionId.isSome = true ↔ (p.state = .Pending ∨ p.state = .Processing))
    ∧ ∀ (env : ConnectorEnv) (amount : Nat) (destination : String),
        env.incomingPayments p.id = some p →
        (p.state = .Completed ∨ p.state = .Expired) →
        amount ≠ 0 →
        accountMiddlewareOutgoing env (some p.id) amount destination
          = .error (.UnreachableError "destination account is disabled") := by
  refine ⟨incomingReachable_invariant p hp, ?_⟩
  intro env amount destination henv hterm hamt
  simp [accountMiddlewareOutgoing, getAccountByDestinationAddress, henv, hamt, hterm]

/-- A freshly inserted Pending row used in the C1 witness. -/
def c1Row : IncomingPayment := ⟨0, .Pending, none, none, none⟩

/-- The row after the expiry update: reachable, Expired, connectionId null. -/
def c1Expired : IncomingPayment :=
  applyPatch (beforeInsert c1Row 7) (beforeUpdate ⟨some .Expired, none, none⟩)

/-- A connector environment resolving stream destination 0 to `c1Expired`. -/
def c1Env : ConnectorEnv :=
  ⟨fun n => if n = 0 then some c1Expired else none, fun _ => none, fun _ => none,
   "test.rafiki"⟩

theorem incomingPayment_connectionId_invariant_witness :
    (c1Expired.connectionId.isSome = true
        ↔ (c1Expired.state = .Pending ∨ c1Expired.state = .Processing))
    ∧ accountMiddlewareOutgoing c1Env (some c1Expired.id) 5 "test.rafiki.abc"
        = .error (.UnreachableError "destination account is disabled") := by
  have h := incomingPayment_connectionId_invariant_and_terminal_unreachable c1Expired
    (IncomingReachable.step _ _ (IncomingReachable.inserted c1Row 7 rfl)
      (IncomingStep.expire _ (Or.inl rfl)))
  exact ⟨h.1, h.2 c1Env 5 "test.rafiki.abc" (by decide) (Or.inr (by decide)) (by decide)⟩

/-! ## C9: onCredit is a no-op on terminal incoming payments -/

/-- Claim C9: for an incoming payment stored in state Completed or Expired,
`onCredit` leaves the stored row unchanged and returns the in-memory payment
as-is — both patch queries exclude rows whose state is Expired or
Completed. -/
theorem onCredit_terminal_is_noop (stored self : IncomingPayment) (t now : Int)
    (h : stored.state = .Completed ∨ stored.state = .Expired) :
    IncomingPayment.onCredit stored self t now = (stored, self) := by
  rcases h with h | h <;> simp [IncomingPayment.onCredit, h]

/-- A terminal stored row for the C9 witness. -/
def c9Stored : IncomingPayment := ⟨3, .Completed, some 5, none, some 77⟩

/-- A stale in-memory copy for the C9 witness (its own incomingAmount of 5 is
reached by totalReceived = 100, so absent the guard the patch would fire). -/
def c9Self : IncomingPayment := ⟨3, .Processing, some 5, some 9, none⟩

theorem onCredit_terminal_is_noop_witness :
    IncomingPayment.onCredit c9Stored c9Self 100 0 = (c9Stored, c9Self) :=
  onCredit_terminal_is_noop c9Stored c9Self 100 0 (Or.inl rfl)

/-! ## C10: wallet-address onCredit scheduling -/

/-- Claim C10: `WalletAddress.onCredit` schedules webhook processing with two
priorities: when the asset has a withdrawalThreshold and
`totalEventsAmount ≤ totalReceived − withdrawalThreshold`, `processAt` is set
to the current time; otherwise, when `withdrawalThrottleDelay` is defined and
`processAt` is unset, `processAt` is set to now + withdrawalThrottleDelay; and
an already-scheduled `processAt` is never postponed by the throttled path. -/
theorem walletAddress_onCredit_scheduling (w : WalletAddress) (t : Int)
    (delay : Option Int) (now : Int) :
    (∀ th, w.asset.withdrawalThreshold = some th → w.totalEventsAmount ≤ t - th →
        (WalletAddress.onCredit w t delay now).processAt = some now)
    ∧ (∀ d, delay = some d → w.processAt = none →
        (w.asset.withdrawalThreshold = none ∨
          ∃ th, w.asset.withdrawalThreshold = some th ∧ t - th < w.totalEventsAmount) →
        (WalletAddress.onCredit w t delay now).processAt = some (now + d))
    ∧ (∀ x, w.processAt = some x →
        (w.asset.withdrawalThreshold = none ∨
          ∃ th, w.asset.withdrawalThreshold = some th ∧ t - th < w.totalEventsAmount) →
        (WalletAddress.onCredit w t delay now).processAt = some x) := by
  refine ⟨?_, ?_, ?_⟩
  · intro th hth hle
    simp [WalletAddress.onCredit, hth, hle]
  · intro d hd hp hcase
    rcases hcase with h | ⟨th, hth, hlt⟩
    · simp [WalletAddress.onCredit, h, waOnCreditThrottle, hd, hp]
    · simp [WalletAddress.onCredit, hth, waOnCreditThrottle, hd, hp, not_le.mpr hlt]
  · intro x hx hcase
    have hthr : waOnCreditThrottle w delay now = w := by
      cases delay <;> simp [waOnCreditThrottle, hx]
    rcases hcase with h | ⟨th, hth, hlt⟩
    · simp [WalletAddress.onCredit, h, hthr, hx]
    · simp [WalletAddress.onCredit, hth, hthr, hx, not_le.mpr hlt]

theorem walletAddress_onCredit_scheduling_witness :
    (WalletAddress.onCredit ⟨1, 5, none, ⟨some 3⟩⟩ 10 (some 7) 100).processAt = some 100
    ∧ (WalletAddress.onCredit ⟨1, 9, none, ⟨some 3⟩⟩ 10 (some 7) 100).processAt = some 107
    ∧ (WalletAddress.onCredit ⟨1, 9, some 42, ⟨some 3⟩⟩ 10 (some 7) 100).processAt
        = some 42 := by
  refine ⟨(walletAddress_onCredit_scheduling ⟨1, 5, none, ⟨some 3⟩⟩ 10 (some 7) 100).1
      3 rfl (by decide), ?_, ?_⟩
  · exact (walletAddress_onCredit_scheduling ⟨1, 9, none, ⟨some 3⟩⟩ 10 (some 7) 100).2.1
      7 rfl rfl (Or.inr ⟨3, rfl, by decide⟩)
  · exact (walletAddress_onCredit_scheduling ⟨1, 9, some 42, ⟨some 3⟩⟩ 10 (some 7) 100).2.2
      42 rfl (Or.inr ⟨3, rfl, by decide⟩)

/-! ## Receiver resolver grant handling
(open_payments/receiver/service.ts, getIncomingPaymentGrant) -/

/-- A cached client grant for `(authServer, incoming-payment, read-all)`, as
returned by `grantService.get`: its `expired` getter and whether the
`authServer` relation resolved. -/
structure CachedGrant where
  accessToken : String
  expired : Bool
  hasAuthServer : Bool
deriving DecidableEq, Repr

/-- The outcome of `openPaymentsClient.token.rotate` at the grant's management
URL: the new token, or `none` when the call fails (throws). -/
structure RotatedToken where
  accessToken : String
deriving DecidableEq, Repr

/-- The external inputs of one `getIncomingPaymentGrant` call: whether the
remote wallet-address descriptor resolved, the cached grant (the grants table
keyed by `(authServer, accessType, accessActions)`), the rotation outcome, and
the outcome of requesting a brand-new grant (`none` for a pending/interactive
or malformed grant). -/
structure GrantEnv where
  walletAddressFound : Bool
  cached : Option CachedGrant
  rotationResult : Option RotatedToken
  freshGrantGranted : Option CachedGrant

/-- The observable outcome of `getIncomingPaymentGrant`: the grant handed to
the caller, the cache contents afterwards, and whether a fresh grant was
requested from the authorization server. -/
structure GrantOutcome where
  result : Option CachedGrant
  cacheAfter : Option CachedGrant
  requestedFreshGrant : Bool
deriving DecidableEq, Repr

/-- `getIncomingPaymentGrant` (receiver/service.ts lines 283-356): an existing
non-expired grant is returned as-is; an expired grant is rotated via its
management URL, the cache being updated on success (`grantService.update`);
when rotation fails the function logs and returns undefined — the catch block
performs no cache mutation, so the expired grant stays cached — and the
fresh-grant request below is never reached.  With no cached grant, a new grant
is requested and cached. -/
def getIncomingPaymentGrant (env : GrantEnv) : GrantOutcome :=
  if ¬ env.walletAddressFound then ⟨none, env.cached, false⟩
  else
    match env.cached with
    | some g =>
        if g.expired then
          if ¬ g.hasAuthServer then ⟨none, env.cached, false⟩
          else
            match env.rotationResult with
            | some tok =>
                let updated : CachedGrant := ⟨tok.accessToken, false, g.hasAuthServer⟩
                ⟨some updated, some updated, false⟩
            | none => ⟨none, env.cached, false⟩
        else ⟨some g, env.cached, false⟩
    | none =>
        match env.freshGrantGranted with
        | some g => ⟨some g, some g, true⟩
        | none => ⟨none, none, true⟩

/-- `getIncomingPayment` for a remote receiver URL: with no grant obtainable
the thrown error is caught and the resolver yields undefined; otherwise the
remote incoming payment is fetched with the grant's access token. -/
def resolverGetRemote (env : GrantEnv) (fetch : String → Option String) : Option String :=
  match (getIncomingPaymentGrant env).result with
  | none => none
  | some g => fetch g.accessToken

/-- Counterexample to claim C8 as stated: with a cached expired grant whose
rotation fails, the resolver returns undefined and requests no fresh grant,
but the expired grant is NOT evicted — it is still in the cache afterwards. -/
theorem grantRotationFailure_claim_counterexample :
    (getIncomingPaymentGrant ⟨true, some ⟨"tok", true, true⟩, none, none⟩).result = none
    ∧ (getIncomingPaymentGrant
        ⟨true, some ⟨"tok", true, true⟩, none, none⟩).requestedFreshGrant = false
    ∧ ¬ (getIncomingPaymentGrant
        ⟨true, some ⟨"tok", true, true⟩, none, none⟩).cacheAfter = none := by
  decide

/-- Claim C8 (amended): when the cached grant for (authServer,
incoming-payment, read-all) is expired and the token-rotation call to its
management URL fails, `get(url)` returns undefined and the resolver does not
request a fresh grant from the authorization server; the expired grant
remains in the cache (it is not evicted). -/
theorem grantRotationFailure_returns_undefined (env : GrantEnv) (g : CachedGrant)
    (fetch : String → Option String)
    (hwa : env.walletAddressFound = true) (hc : env.cached = some g)
    (hexp : g.expired = true) (hauth : g.hasAuthServer = true)
    (hrot : env.rotationResult = none) :
    (getIncomingPaymentGrant env).result = none
    ∧ resolverGetRemote env fetch = none
    ∧ (getIncomingPaymentGrant env).cacheAfter = some g
    ∧ (getIncomingPaymentGrant env).requestedFreshGrant = false := by
  have h : getIncomingPaymentGrant env = ⟨none, some g, false⟩ := by
    simp [getIncomingPaymentGrant, hwa, hc, hexp, hauth, hrot]
  refine ⟨by simp [h], ?_, by simp [h], by simp [h]⟩
  simp [resolverGetRemote, h]

theorem grantRotationFailure_returns_undefined_witness :
    (getIncomingPaymentGrant ⟨true, some ⟨"tok", true, true⟩, none, none⟩).result = none
    ∧ resolverGetRemote ⟨true, some ⟨"tok", true, true⟩, none, none⟩
        (fun t => some t) = none
    ∧ (getIncomingPaymentGrant ⟨true, some ⟨"tok", true, true⟩, none, none⟩).cacheAfter
        = some ⟨"tok", true, true⟩
    ∧ (getIncomingPaymentGrant
        ⟨true, some ⟨"tok", true, true⟩, none, none⟩).requestedFreshGrant = false :=
  grantRotationFailure_returns_undefined ⟨true, some ⟨"tok", true, true⟩, none, none⟩
    ⟨"tok", true, true⟩ (fun t => some t) rfl rfl rfl rfl rfl

/-! ## Outgoing payment lifecycle worker (C2)

`worker.ts`/`lifecycle.ts` are not under the provided sources; the model below
is modelled from the spec (§4.3, §5) with its retry schedule pinned by the
in-repo test (outgoing/service.test.ts: `fastForwardToAttempt`, lines 130-137,
and the `SENDING (partial payment then retryable Pay error)` scenario, lines
951-992). -/

/-- `OutgoingPaymentState` from outgoing/model.ts. -/
inductive OutgoingPaymentState
  | Funding
  | Sending
  | Failed
  | Completed
deriving DecidableEq, Repr

/-- The pay runtime's typed errors (spec §4.3, step 3). -/
inductive PayError
  | ClosedByReceiver
  | IdleTimeout
  | EstablishmentFailed
  | InsufficientExchangeRate
  | RateProbeFailed
  | ConnectorError
  | ReceiverProtocolViolation
  | DestinationAssetConflict
  | IncompatibleReceiveMax
  | InvalidGeneratedSequence
deriving DecidableEq, Repr

/-- Modelled from the spec: the partition of pay errors into retryable and
fatal (spec §4.3 step 3). -/
def retryablePayError : PayError → Bool
  | .ClosedByReceiver => true
  | .IdleTimeout => true
  | .EstablishmentFailed => true
  | .InsufficientExchangeRate => true
  | .RateProbeFailed => true
  | .ConnectorError => true
  | _ => false

/-- An `outgoingPayments` row restricted to what the lifecycle worker reads
and writes.  `processAt` is a timestamp in milliseconds. -/
structure OutgoingPaymentRow where
  state : OutgoingPaymentState
  stateAttempts : Nat
  sentAmount : Nat
  debitAmount : Nat
  error : Option PayError
  processAt : Option Nat
deriving DecidableEq, Repr

/-- Modelled from the spec: the worker gives a payment a bounded number of
attempts; the in-repo retry scenario shows 4 retries in Sending followed by a
transition to Failed on the 5th attempt. -/
def MAX_STATE_ATTEMPTS : Nat := 5

/-- The outcome of one pay attempt: the source amount it moved and the typed
error it surfaced, if any. -/
structure PayAttemptResult where
  amountSent : Nat
  error : Option PayError
deriving DecidableEq, Repr

/-- One worker step's observable outcome: the patched payment row and the
residual withdrawal initiated on entry to Completed or Failed. -/
structure WorkerOutcome where
  payment : OutgoingPaymentRow
  withdrawal : Option Nat
deriving DecidableEq, Repr

/-- Modelled from the spec: one lifecycle-worker pay step on a Sending payment
(`worker.ts`/`lifecycle.ts` are not under the provided sources).
`rbs` is `RETRY_BACKOFF_SECONDS`, a fixed constant whose value is likewise not
under the provided sources.  `sentAmount` accumulates the attempt's sent
amount.  A retryable error with attempts to spare keeps the payment Sending,
increments `stateAttempts` and schedules the next attempt; the schedule is
pinned by the in-repo test `fastForwardToAttempt` (the k-th retry runs
k × RETRY_BACKOFF_SECONDS seconds after the previous attempt, which is linear
in `stateAttempts`, not exponential).  Otherwise the payment moves to Failed
with the last error (or to Completed on success), `stateAttempts` resets, and
a residual withdrawal of `debitAmount − sentAmount` is initiated. -/
def workerStep (rbs now : Nat) (p : OutgoingPaymentRow) (r : PayAttemptResult) :
    WorkerOutcome :=
  let sent := p.sentAmount + r.amountSent
  match r.error with
  | some e =>
      if retryablePayError e ∧ p.stateAttempts + 1 < MAX_STATE_ATTEMPTS then
        ⟨{ p with
            sentAmount := sent
            stateAttempts := p.stateAttempts + 1
            processAt := some (now + (p.stateAttempts + 1) * (rbs * 1000)) }, none⟩
      else
        ⟨{ p with
            state := .Failed
            error := some e
            stateAttempts := 0
            sentAmount := sent
            processAt := none }, some (p.debitAmount - sent)⟩
  | none =>
      ⟨{ p with
          state := .Completed
          stateAttempts := 0
          sentAmount := sent
          processAt := none }, some (p.debitAmount - sent)⟩

/-- The mocked pay outcome of the C2 scenario: each attempt transfers 10
source units (5 destination units) and fails with ClosedByReceiver. -/
def mockPayResult : PayAttemptResult := ⟨10, some .ClosedByReceiver⟩

/-- A freshly funded payment in Sending, due immediately (time origin 0). -/
def initialSendingRow (debit : Nat) : OutgoingPaymentRow :=
  ⟨.Sending, 0, 0, debit, none, some 0⟩

/-- Driving the worker through the C2 scenario: each step runs at the
scheduled `processAt` of the previous step. -/
def retryRun (rbs debit : Nat) : Nat → WorkerOutcome
  | 0 => ⟨initialSendingRow debit, none⟩
  | n + 1 =>
      let prev := (retryRun rbs debit n).payment
      workerStep rbs (prev.processAt.getD 0) prev mockPayResult

theorem retryRun_step1 (rbs debit : Nat) :
    retryRun rbs debit 1 = workerStep rbs 0 (initialSendingRow debit) mockPayResult := rfl

theorem retryRun_step2 (rbs debit : Nat) :
    retryRun rbs debit 2
      = workerStep rbs ((retryRun rbs debit 1).payment.processAt.getD 0)
          (retryRun rbs debit 1).payment mockPayResult := rfl

theorem retryRun_step3 (rbs debit : Nat) :
    retryRun rbs debit 3
      = workerStep rbs ((retryRun rbs debit 2).payment.processAt.getD 0)
          (retryRun rbs debit 2).payment mockPayResult := rfl

theorem retryRun_step4 (rbs debit : Nat) :
    retryRun rbs debit 4
      = workerStep rbs ((retryRun rbs debit 3).payment.processAt.getD 0)
          (retryRun rbs debit 3).payment mockPayResult := rfl

theorem retryRun_step5 (rbs debit : Nat) :
    retryRun rbs debit 5
      = workerStep rbs ((retryRun rbs debit 4).payment.processAt.getD 0)
          (retryRun rbs debit 4).payment mockPayResult := rfl

theorem retryRun_val1 (rbs debit : Nat) :
    retryRun rbs debit 1
      = ⟨⟨.Sending, 1, 10, debit, none, some (1 * (rbs * 1000))⟩, none⟩ := by
  rw [retryRun_step1]
  simp [workerStep, mockPayResult, initialSendingRow, retryablePayError, MAX_STATE_ATTEMPTS]

theorem retryRun_val2 (rbs debit : Nat) :
    retryRun rbs debit 2
      = ⟨⟨.Sending, 2, 20, debit, none, some (3 * (rbs * 1000))⟩, none⟩ := by
  rw [retryRun_step2, retryRun_val1]
  simp [workerStep, mockPayResult, retryablePayError, MAX_STATE_ATTEMPTS]
  all_goals omega

theorem retryRun_val3 (rbs debit : Nat) :
    retryRun rbs debit 3
      = ⟨⟨.Sending, 3, 30, debit, none, some (6 * (rbs * 1000))⟩, none⟩ := by
  rw [retryRun_step3, retryRun_val2]
  simp [workerStep, mockPayResult, retryablePayError, MAX_STATE_ATTEMPTS]
  all_goals omega

theorem retryRun_val4 (rbs debit : Nat) :
    retryRun rbs debit 4
      = ⟨⟨.Sending, 4, 40, debit, none, some (10 * (rbs * 1000))⟩, none⟩ := by
  rw [retryRun_step4, retryRun_val3]
  simp [workerStep, mockPayResult, retryablePayError, MAX_STATE_ATTEMPTS]
  all_goals omega

theorem retryRun_val5 (rbs debit : Nat) :
    retryRun rbs debit 5
      = ⟨⟨.Failed, 0, 50, debit, some .ClosedByReceiver, none⟩, some (debit - 50)⟩ := by
  rw [retryRun_step5, retryRun_val4]
  simp [workerStep, mockPayResult, retryablePayError, MAX_STATE_ATTEMPTS]

/-- Claim C2 (amended): for an outgoing payment in Sending whose pay attempt
returns a retryable error, the payment stays Sending with `stateAttempts`
incremented and the next attempt scheduled `stateAttempts ×
RETRY_BACKOFF_SECONDS` seconds later (a linear backoff keyed off
`stateAttempts`; cumulatively the k-th attempt runs at the k-th triangular
number times the backoff, as the in-repo test's `fastForwardToAttempt`
schedule pins — not `RETRY_BACKOFF_SECONDS × 2^k`); in the scenario sending 10
source units (5 delivered) per attempt, after 5 attempts the payment is Failed
with the last error, `sentAmount = 50`, and a residual withdrawal of
`debitAmount − 50`.  `rbs` is the RETRY_BACKOFF_SECONDS constant. -/
theorem outgoingPayment_retry_schedule (rbs debit : Nat) :
    (∀ k, k < 4 →
        (retryRun rbs debit (k + 1)).payment.state = .Sending
        ∧ (retryRun rbs debit (k + 1)).payment.stateAttempts = k + 1
        ∧ (retryRun rbs debit (k + 1)).payment.sentAmount = 10 * (k + 1)
        ∧ (retryRun rbs debit (k + 1)).payment.processAt
            = some ((k + 1) * (k + 2) / 2 * (rbs * 1000))
        ∧ (retryRun rbs debit (k + 1)).withdrawal = none)
    ∧ (retryRun rbs debit 5).payment.state = .Failed
    ∧ (retryRun rbs debit 5).payment.error = some .ClosedByReceiver
    ∧ (retryRun rbs debit 5).payment.stateAttempts = 0
    ∧ (retryRun rbs debit 5).payment.sentAmount = 50
    ∧ (retryRun rbs debit 5).withdrawal = some (debit - 50) := by
  refine ⟨?_, ?_, ?_, ?_, ?_, ?_⟩
  · intro k hk
    interval_cases k <;>
      norm_num [retryRun_val1, retryRun_val2, retryRun_val3, retryRun_val4]
  all_goals simp [retryRun_val5]

/-- Counterexample to claim C2 as stated: with RETRY_BACKOFF_SECONDS = 10, the
third retry is scheduled at 60000 ms (the triangular schedule 1+2+3 backoffs),
whereas an exponential `RETRY_BACKOFF_SECONDS × 2^k` schedule would place it
at 70000 ms (k = 0,1,2) or 140000 ms (k = 1,2,3). -/
theorem outgoingPayment_retry_schedule_counterexample :
    (retryRun 10 123 3).payment.processAt = some 60000
    ∧ 10 * 1000 * (2 ^ 0 + 2 ^ 1 + 2 ^ 2) = 70000
    ∧ 10 * 1000 * (2 ^ 1 + 2 ^ 2 + 2 ^ 3) = 140000
    ∧ (60000 : Nat) ≠ 70000 ∧ (60000 : Nat) ≠ 140000 := by
  decide

theorem outgoingPayment_retry_schedule_witness :
    (retryRun 10 123 3).payment.state = .Sending
    ∧ (retryRun 10 123 3).payment.stateAttempts = 3
    ∧ (retryRun 10 123 3).payment.processAt = some 60000
    ∧ (retryRun 10 123 5).payment.state = .Failed
    ∧ (retryRun 10 123 5).payment.sentAmount = 50
    ∧ (retryRun 10 123 5).withdrawal = some 73 := by
  have h := outgoingPayment_retry_schedule 10 123
  have h3 := h.1 2 (by norm_num)
  exact ⟨h3.1, by simpa using h3.2.1, by simpa using h3.2.2.2.1, h.2.1,
    h.2.2.2.2.1, by simpa using h.2.2.2.2.2⟩

/-! ## Grant-limit validation on outgoing-payment creation (C3) -/

/-- Ceiling division on naturals. -/
def cdiv (a b : Nat) : Nat := (a + b - 1) / b

/-- Which limit a grant carries: a debitAmount limit in the quote's source
asset or a receiveAmount limit in its destination asset. -/
inductive GrantLimitKind
  | debit
  | receive
deriving DecidableEq, Repr

/-- Modelled from the spec: a prior outgoing payment charged against the same
grant with the current interval covering it (outgoing/service.ts
`validateGrant` is not under the provided sources).  `totalSent` is the
ledger's actual total sent for that payment. -/
structure GrantPayment where
  failed : Bool
  debitAmount : Nat
  receiveAmount : Nat
  totalSent : Nat
deriving DecidableEq, Repr

/-- Modelled from the spec: the contribution of a prior same-grant,
same-interval payment to the consumed budget — its quoted debit/receive
amount, except that a Failed payment contributes its actual sent amount
(debit-limited) or the equivalent delivered amount derived from its quoted
exchange rate receive/debit (receive-limited). -/
def grantContribution (kind : GrantLimitKind) (p : GrantPayment) : Nat :=
  match kind with
  | .debit => if p.failed then p.totalSent else p.debitAmount
  | .receive =>
      if p.failed then cdiv (p.totalSent * p.receiveAmount) p.debitAmount
      else p.receiveAmount

/-- The budget already consumed within the grant's current interval. -/
def grantUsed (kind : GrantLimitKind) (priors : List GrantPayment) : Nat :=
  (priors.map (grantContribution kind)).sum

/-- Modelled from the spec: `validateGrant` — the quote's amount must fit in
the remaining budget. -/
def validateGrant (kind : GrantLimitKind) (limit : Nat) (priors : List GrantPayment)
    (requested : Nat) : Bool :=
  requested + grantUsed kind priors ≤ limit

/-- The grant-limit outcome of an outgoing-payment creation. -/
inductive GrantCheckResult
  | created
  | insufficientGrant
deriving DecidableEq, Repr

/-- Modelled from the spec: creation under a grant whose interval covers now
fails with InsufficientGrant exactly when `validateGrant` rejects. -/
def createUnderGrant (kind : GrantLimitKind) (limit : Nat) (priors : List GrantPayment)
    (requested : Nat) : GrantCheckResult :=
  if validateGrant kind limit priors requested then .created else .insufficientGrant

/-- Claim C3: creation under a grant with a debit/receive limit and a covering
interval fails with InsufficientGrant exactly when the quote's amount exceeds
the limit minus the prior same-grant, same-interval contributions, a Failed
prior payment contributing its actual sent amount (debit-limited) or its
rate-derived equivalent (receive-limited) instead of its quoted amount; a
limit exactly equal to the requested amount succeeds. -/
theorem grantLimit_enforcement (kind : GrantLimitKind) (limit requested : Nat)
    (priors : List GrantPayment) :
    (createUnderGrant kind limit priors requested = .insufficientGrant
      ↔ (limit : Int) - grantUsed kind priors < requested)
    ∧ (limit = requested → createUnderGrant kind limit [] requested = .created)
    ∧ (∀ p : GrantPayment, p.failed = true →
        grantContribution .debit p = p.totalSent
        ∧ grantContribution .receive p = cdiv (p.totalSent * p.receiveAmount) p.debitAmount)
    ∧ (∀ p : GrantPayment, p.failed = false →
        grantContribution .debit p = p.debitAmount
        ∧ grantContribution .receive p = p.receiveAmount) := by
  refine ⟨?_, ?_, ?_, ?_⟩
  · constructor
    · intro hc
      by_contra hlt
      have hle : requested + grantUsed kind priors ≤ limit := by omega
      simp [createUnderGrant, validateGrant, hle] at hc
    · intro hlt
      have hgt : ¬ (requested + grantUsed kind priors ≤ limit) := by omega
      simp [createUnderGrant, validateGrant, hgt]
  · intro h
    subst h
    simp [createUnderGrant, validateGrant, grantUsed]
  · intro p hp
    simp [grantContribution, hp]
  · intro p hp
    simp [grantContribution, hp]

theorem grantLimit_enforcement_witness :
    createUnderGrant .debit 200 [⟨true, 190, 95, 188⟩] 123 = .insufficientGrant
    ∧ createUnderGrant .debit 123 [] 123 = .created
    ∧ grantContribution .debit ⟨true, 190, 95, 188⟩ = 188 := by
  have h := grantLimit_enforcement .debit 200 123 [⟨true, 190, 95, 188⟩]
  have h2 := grantLimit_enforcement .debit 123 123 ([] : List GrantPayment)
  exact ⟨h.1.mpr (by decide), h2.2.1 rfl, (h.2.2.1 ⟨true, 190, 95, 188⟩ rfl).1⟩

/-! ## fund: Funding → Sending (C4) -/

/-- The outgoing payment columns `fund` reads and writes, joined with its
quote's debit amount. -/
structure FundPaymentRow where
  state : OutgoingPaymentState
  quoteDebitAmount : Nat
deriving DecidableEq, Repr

/-- The state `fund` acts on: the payment row with the requested id (none when
no such payment exists) and the ledger balance of the payment's account. -/
structure FundSystem where
  payment : Option FundPaymentRow
  accountBalance : Nat
deriving DecidableEq, Repr

/-- `FundingError` from outgoing/errors.ts (declared via the in-repo tests). -/
inductive FundingError
  | WrongState
  | InvalidAmount
  | UnknownPayment
deriving DecidableEq, Repr

/-- The outcome of a `fund` call: the returned error, if any, and the state of
the system afterwards. -/
structure FundOutcome where
  error : Option FundingError
  sys : FundSystem
deriving DecidableEq, Repr

/-- Modelled from the spec: `fund({id, amount, transferId})`
(outgoing/service.ts is not under the provided sources; each case is pinned by
the fund tests in outgoing/service.test.ts lines 1154-1232): UnknownPayment
when no payment with that id exists; WrongState when the payment is not in
Funding; InvalidAmount when the amount differs from the quote's debit amount;
otherwise the payment transitions to Sending atomically with a ledger deposit
of the amount to its account. -/
def fund (sys : FundSystem) (amount : Nat) : FundOutcome :=
  match sys.payment with
  | none => ⟨some .UnknownPayment, sys⟩
  | some p =>
      if p.state = .Funding then
        if amount = p.quoteDebitAmount then
          ⟨none, ⟨some { p with state := .Sending }, sys.accountBalance + amount⟩⟩
        else ⟨some .InvalidAmount, sys⟩
      else ⟨some .WrongState, sys⟩

/-- Claim C4: `fund` transitions a Funding payment to Sending atomically with
a ledger deposit of the amount; it fails with UnknownPayment when no payment
with that id exists, WrongState when the payment is in any state other than
Funding (leaving it unchanged), and InvalidAmount when the amount differs from
the quote's debitAmount (leaving the state Funding and the balance as it was,
0 for a fresh payment). -/
theorem fund_state_machine (sys : FundSystem) (amount : Nat) :
    (sys.payment = none → fund sys amount = ⟨some .UnknownPayment, sys⟩)
    ∧ (∀ p, sys.payment = some p → p.state ≠ .Funding →
        fund sys amount = ⟨some .WrongState, sys⟩)
    ∧ (∀ p, sys.payment = some p → p.state = .Funding → amount ≠ p.quoteDebitAmount →
        fund sys amount = ⟨some .InvalidAmount, sys⟩)
    ∧ (∀ p, sys.payment = some p → p.state = .Funding → amount = p.quoteDebitAmount →
        fund sys amount
          = ⟨none, ⟨some { p with state := .Sending }, sys.accountBalance + amount⟩⟩) := by
  refine ⟨?_, ?_, ?_, ?_⟩
  · intro h
    simp [fund, h]
  · intro p hp hs
    simp [fund, hp, hs]
  · intro p hp hs ha
    simp [fund, hp, hs, ha]
  · intro p hp hs ha
    simp [fund, hp, hs, ha]

theorem fund_state_machine_witness :
    fund ⟨none, 0⟩ 123 = ⟨some .UnknownPayment, ⟨none, 0⟩⟩
    ∧ fund ⟨some ⟨.Completed, 123⟩, 0⟩ 123 = ⟨some .WrongState, ⟨some ⟨.Completed, 123⟩, 0⟩⟩
    ∧ fund ⟨some ⟨.Funding, 123⟩, 0⟩ 122 = ⟨some .InvalidAmount, ⟨some ⟨.Funding, 123⟩, 0⟩⟩
    ∧ fund ⟨some ⟨.Funding, 123⟩, 0⟩ 123 = ⟨none, ⟨some ⟨.Sending, 123⟩, 123⟩⟩ := by
  refine ⟨(fund_state_machine ⟨none, 0⟩ 123).1 rfl,
    (fund_state_machine ⟨some ⟨.Completed, 123⟩, 0⟩ 123).2.1 ⟨.Completed, 123⟩ rfl
      (by decide),
    (fund_state_machine ⟨some ⟨.Funding, 123⟩, 0⟩ 122).2.2.1 ⟨.Funding, 123⟩ rfl rfl
      (by decide),
    (fund_state_machine ⟨some ⟨.Funding, 123⟩, 0⟩ 123).2.2.2 ⟨.Funding, 123⟩ rfl rfl rfl⟩

/-! ## Quote sending fees (C5) -/

/-- Modelled from the spec: `Fee.calculate` (the fee model is not under the
provided sources): `fixedFee` plus a basis-point part.  The basis-point part
is the floor of `principal × basisPointFee / 10000`, as pinned by the fee rows
of the in-repo quote tests (200 bp on the 3365-unit pre-fee source amount
contributes 67, its floor, not 68, its ceiling). -/
def feeCalculate (fixedFee basisPointFee principal : Nat) : Nat :=
  fixedFee + principal * basisPointFee / 10000

/-- The fee formula as the spec sentence states it, with a ceiling on the
basis-point part: `fixedFee + ceil(amount × basisPointFee / 10000)`. -/
def feeCalculateSpecCeil (fixedFee basisPointFee principal : Nat) : Nat :=
  fixedFee + cdiv (principal * basisPointFee) 10000

/-- Modelled from the spec: the pre-fee source amount of a fixed-delivery
quote between same-asset wallet addresses at unit exchange rate and zero
slippage.  The external streaming-pay rate probe quotes against an exclusive
upper exchange-rate bound, costing one extra source unit; the value is pinned
by the in-repo no-fee test row (incoming 3364 → debitAmount 3365). -/
def fixedDeliveryBaseDebit (incomingAmount : Nat) : Nat := incomingAmount + 1

/-- Modelled from the spec: in fixed-delivery mode the sending fee inflates
the debit amount: `debitAmount = base + fee(base)` with the fee computed on
the pre-fee source amount. -/
def fixedDeliveryDebitAmount (fixedFee basisPointFee incomingAmount : Nat) : Nat :=
  fixedDeliveryBaseDebit incomingAmount
    + feeCalculate fixedFee basisPointFee (fixedDeliveryBaseDebit incomingAmount)

/-- Modelled from the spec: in fixed-source mode the sending fee reduces the
receive amount: the fee is computed on the quoted receive amount and converted
at the quoted exchange rate receive/debit; pinned by the cross-currency fee
rows of the in-repo quote tests. -/
def fixedSendReceiveAmount (fixedFee basisPointFee baseDebit baseReceive : Nat) : Nat :=
  baseReceive - feeCalculate fixedFee basisPointFee baseReceive * baseReceive / baseDebit

/-- Counterexample to claim C5 as stated: on its own scenario (incoming
amount 3364, fee {fixed 150, 200 basis points}, slippage 0) the claimed
ceiling fee formula yields a debit amount of 3583 — whether the basis-point
part is computed on the pre-fee source amount 3365 or on the delivered amount
3364 — while the repository's fee tests pin `debitAmount.value = 3582`, which
is the floor-fee result. -/
theorem quoteFee_ceil_formula_counterexample :
    fixedDeliveryBaseDebit 3364
        + feeCalculateSpecCeil 150 200 (fixedDeliveryBaseDebit 3364) = 3583
    ∧ fixedDeliveryBaseDebit 3364 + feeCalculateSpecCeil 150 200 3364 = 3583
    ∧ fixedDeliveryDebitAmount 150 200 3364 = 3582
    ∧ (3583 : Nat) ≠ 3582 := by decide

/-- Claim C5 (amended): with a Sending fee {fixedFee, basisPointFee}
configured for the source asset, fixed-delivery quoting inflates the debit
amount by `fee = fixedFee + floor(amount × basisPointFee / 10000)` — floor,
not ceil — and fixed-source quoting reduces the receive amount by the
rate-converted fee; with asset USD scale 2, incoming amount 3364, fee
{fixed 150, basisPoints 200} and slippage 0 the resulting debit amount is
3582.  All eight fee rows of the in-repo quote tests are reproduced. -/
theorem quoteFee_application (fixedFee basisPointFee i d r : Nat) :
    (fixedDeliveryDebitAmount fixedFee basisPointFee i
      = fixedDeliveryBaseDebit i
        + feeCalculate fixedFee basisPointFee (fixedDeliveryBaseDebit i))
    ∧ fixedDeliveryBaseDebit i ≤ fixedDeliveryDebitAmount fixedFee basisPointFee i
    ∧ fixedSendReceiveAmount fixedFee basisPointFee d r ≤ r
    ∧ fixedDeliveryDebitAmount 0 0 3364 = 3365
    ∧ fixedDeliveryDebitAmount 150 0 3364 = 3515
    ∧ fixedDeliveryDebitAmount 0 200 3364 = 3432
    ∧ fixedDeliveryDebitAmount 150 200 3364 = 3582
    ∧ fixedSendReceiveAmount 0 0 200 100 = 100
    ∧ fixedSendReceiveAmount 20 0 200 100 = 90
    ∧ fixedSendReceiveAmount 0 200 200 100 = 99
    ∧ fixedSendReceiveAmount 20 200 200 100 = 89 := by
  refine ⟨rfl, Nat.le_add_right _ _, Nat.sub_le _ _, ?_⟩
  decide

/-! ## Outgoing-payment creation errors (C6) -/

/-- `OutgoingPaymentError` cases relevant to creation (outgoing/errors.ts,
declared via the in-repo tests). -/
inductive OutgoingPaymentError
  | UnknownWalletAddress
  | InactiveWalletAddress
  | UnknownQuote
  | InvalidQuote
deriving DecidableEq, Repr

/-- A wallet-address row as creation sees it: `isActive` is the
deactivatedAt-derived getter of wallet_address/model.ts. -/
structure WalletRow where
  isActive : Bool
deriving DecidableEq, Repr

/-- A quote row as creation sees it: its owning wallet address, its expiry,
and the state of its receiver's incoming payment (none when the receiver does
not resolve to a known incoming payment). -/
structure QuoteRow where
  walletAddressId : Nat
  expiresAtMs : Int
  receiverState : Option IncomingPaymentState
deriving DecidableEq, Repr

/-- The lookup environment of one creation call.  `consumedQuote` holds the
quote ids already referenced by an outgoing payment — the unique key on
`outgoingPayments.quoteId`. -/
structure CreateEnv where
  wallets : Nat → Option WalletRow
  quotes : Nat → Option QuoteRow
  consumedQuote : Nat → Bool
  nowMs : Int

/-- Modelled from the spec: outgoing-payment creation validation
(outgoing/service.ts is not under the provided sources; each error case is
pinned by the create tests in outgoing/service.test.ts lines 410-524). -/
def createOutgoingPayment (env : CreateEnv) (walletAddressId quoteId : Nat) :
    Except OutgoingPaymentError Unit :=
  match env.wallets walletAddressId with
  | none => .error .UnknownWalletAddress
  | some w =>
      if w.isActive = false then .error .InactiveWalletAddress
      else
        match env.quotes quoteId with
        | none => .error .UnknownQuote
        | some q =>
            if env.consumedQuote quoteId then .error .InvalidQuote
            else if q.walletAddressId ≠ walletAddressId then .error .InvalidQuote
            else if q.expiresAtMs ≤ env.nowMs then .error .InvalidQuote
            else if q.receiverState = some .Completed ∨ q.receiverState = some .Expired then
              .error .InvalidQuote
            else .ok ()

/-- A successful creation inserts the payment with `id = quoteId`, making the
quote consumed for every later call (the unique key on quoteId). -/
def consumeQuote (env : CreateEnv) (quoteId : Nat) : CreateEnv :=
  { env with consumedQuote := fun q => if q = quoteId then true else env.consumedQuote q }

/-- Claim C6: outgoing-payment creation rejects UnknownWalletAddress for an
unknown wallet address, InactiveWalletAddress for a deactivated one,
UnknownQuote when the quote id does not exist, and InvalidQuote exactly when
the quote is already consumed (each quote is usable at most once), expired,
belongs to a different wallet address, or its receiver incoming payment is
Completed or Expired; a consumed quote stays consumed, so reusing the quote of
a successful creation yields InvalidQuote. -/
theorem create_error_mapping (env : CreateEnv) (wid qid : Nat) :
    (env.wallets wid = none →
        createOutgoingPayment env wid qid = .error .UnknownWalletAddress)
    ∧ (∀ w, env.wallets wid = some w → w.isActive = false →
        createOutgoingPayment env wid qid = .error .InactiveWalletAddress)
    ∧ (∀ w, env.wallets wid = some w → w.isActive = true → env.quotes qid = none →
        createOutgoingPayment env wid qid = .error .UnknownQuote)
    ∧ (∀ w q, env.wallets wid = some w → w.isActive = true → env.quotes qid = some q →
        (createOutgoingPayment env wid qid = .error .InvalidQuote
          ↔ (env.consumedQuote qid = true ∨ q.walletAddressId ≠ wid
              ∨ q.expiresAtMs ≤ env.nowMs
              ∨ q.receiverState = some .Completed ∨ q.receiverState = some .Expired)))
    ∧ (createOutgoingPayment env wid qid = .ok () →
        createOutgoingPayment (consumeQuote env qid) wid qid = .error .InvalidQuote) := by
  refine ⟨?_, ?_, ?_, ?_, ?_⟩
  · intro h
    simp [createOutgoingPayment, h]
  · intro w hw hact
    simp [createOutgoingPayment, hw, hact]
  · intro w hw hact hq
    simp [createOutgoingPayment, hw, hact, hq]
  · intro w q hw hact hq
    by_cases hc : env.consumedQuote qid
    · simp [createOutgoingPayment, hw, hact, hq, hc]
    · by_cases hm : q.walletAddressId = wid
      · by_cases he : q.expiresAtMs ≤ env.nowMs
        · simp [createOutgoingPayment, hw, hact, hq, hc, hm, he]
        · by_cases hr : q.receiverState = some .Completed ∨ q.receiverState = some .Expired
          · simp [createOutgoingPayment, hw, hact, hq, hc, hm, he, hr]
          · simp [createOutgoingPayment, hw, hact, hq, hc, hm, he, hr]
      · simp [createOutgoingPayment, hw, hact, hq, hc, hm]
  · intro hok
    rcases hw : env.wallets wid with _ | w
    · simp [createOutgoingPayment, hw] at hok
    · by_cases hact : w.isActive = false
      · simp [createOutgoingPayment, hw, hact] at hok
      · rcases hq : env.quotes qid with _ | q
        · simp [createOutgoingPayment, hw, hact, hq] at hok
        · simp [createOutgoingPayment, consumeQuote, hw, hact, hq]

/-- The C6 witness environment: wallet 1 active, wallet 2 deactivated; quote 5
valid for wallet 1 and unconsumed, quote 7 already expired. -/
def c6Env : CreateEnv :=
  ⟨fun n => if n = 1 then some ⟨true⟩ else if n = 2 then some ⟨false⟩ else none,
   fun n =>
     if n = 5 then some ⟨1, 1000, some .Pending⟩
     else if n = 7 then some ⟨1, -5, some .Pending⟩ else none,
   fun _ => false, 0⟩

theorem create_error_mapping_witness :
    createOutgoingPayment c6Env 3 5 = .error .UnknownWalletAddress
    ∧ createOutgoingPayment c6Env 2 5 = .error .InactiveWalletAddress
    ∧ createOutgoingPayment c6Env 1 6 = .error .UnknownQuote
    ∧ createOutgoingPayment c6Env 1 7 = .error .InvalidQuote
    ∧ createOutgoingPayment c6Env 1 5 = .ok ()
    ∧ createOutgoingPayment (consumeQuote c6Env 5) 1 5 = .error .InvalidQuote := by
  have hok : createOutgoingPayment c6Env 1 5 = .ok () := by rfl
  refine ⟨(create_error_mapping c6Env 3 5).1 (by decide),
    (create_error_mapping c6Env 2 5).2.1 ⟨false⟩ (by decide) rfl,
    (create_error_mapping c6Env 1 6).2.2.1 ⟨true⟩ (by decide) rfl (by decide),
    ((create_error_mapping c6Env 1 7).2.2.2.1 ⟨true⟩ ⟨1, -5, some .Pending⟩
      (by decide) rfl (by decide)).mpr (by decide),
    hok,
    (create_error_mapping c6Env 1 5).2.2.2.2 hok⟩

/-! ## Quote expiry (C7) -/

/-- Modelled from the spec: a created quote's expiry (quote/service.ts is not
under the provided sources; pinned by the expiry rows of the in-repo quote
tests): `expiresAt = min(now + quoteLifespan, receiver.expiresAt)`, the
receiver term being absent when the receiver has no expiry. -/
def quoteExpiresAt (nowMs lifespanMs : Int) (receiverExpiresAt : Option Int) : Int :=
  match receiverExpiresAt with
  | none => nowMs + lifespanMs
  | some r => min (nowMs + lifespanMs) r

/-- Claim C7: a created quote's expiresAt equals the minimum of its creation
time plus the configured quote lifespan and the receiver's expiresAt when the
receiver has one: an incoming payment expiring before creation + lifespan
makes the quote expire with the payment, otherwise the quote expires at
creation + lifespan. -/
theorem quoteExpiry_min (now lifespan : Int) :
    (∀ r, quoteExpiresAt now lifespan (some r) = min (now + lifespan) r)
    ∧ (∀ r, r < now + lifespan → quoteExpiresAt now lifespan (some r) = r)
    ∧ (∀ r, now + lifespan ≤ r → quoteExpiresAt now lifespan (some r) = now + lifespan)
    ∧ quoteExpiresAt now lifespan none = now + lifespan := by
  refine ⟨fun r => rfl, ?_, ?_, rfl⟩
  · intro r h
    simp [quoteExpiresAt, min_eq_right (le_of_lt h)]
  · intro r h
    simp [quoteExpiresAt, min_eq_left h]

theorem quoteExpiry_min_witness :
    quoteExpiresAt 100 50 (some 120) = 120
    ∧ quoteExpiresAt 100 50 (some 200) = 150
    ∧ quoteExpiresAt 100 50 none = 150 := by
  refine ⟨(quoteExpiry_min 100 50).2.1 120 (by norm_num), ?_,
    (quoteExpiry_min 100 50).2.2.2⟩
  have h := (quoteExpiry_min 100 50).2.2.1 200 (by norm_num)
  simpa using h
